import Mathlib

/-!
# A shallow embedding of the OpenRIO RapidIO serial physical-layer stack

The repository ships the public header `src/sw/stack/riostack.h`, which fixes
the data model (symbol types, receiver/transmitter state enumerations, the
queue structure and the `RioStack_t` instance structure) and declares the API
functions.  The implementation file `riostack.c` is not part of `src/`, so the
behaviour of the API functions is modelled here from the repository
specification (`spec.md`), faithful to its words; every such definition carries
a doc comment starting with `Modelled from the spec:`.

Machine integers are modelled as `Nat` with explicit reductions (`% 32` for
ackIds, `% 4294967296` for `uint32` counters and time arithmetic, `% 256` for
`uint8` counters).  Packets are lists of 32-bit words; the word arenas backing
the queues are modelled as lists of packet slots.
-/

set_option maxHeartbeats 4000000
set_option maxRecDepth 2000

/-- Symbol types, from `RioSymbolType_t` in `riostack.h` (lines 127-134). -/
inductive RioSymbolType_t where
  | RIOSTACK_SYMBOL_TYPE_IDLE
  | RIOSTACK_SYMBOL_TYPE_CONTROL
  | RIOSTACK_SYMBOL_TYPE_DATA
  | RIOSTACK_SYMBOL_TYPE_ERROR
deriving DecidableEq

export RioSymbolType_t (RIOSTACK_SYMBOL_TYPE_IDLE RIOSTACK_SYMBOL_TYPE_CONTROL
  RIOSTACK_SYMBOL_TYPE_DATA RIOSTACK_SYMBOL_TYPE_ERROR)

/-- A RapidIO symbol, from `RioSymbol_t` in `riostack.h` (lines 147-151):
a type tag and a 32-bit data field (control symbols use the low 24 bits). -/
structure RioSymbol_t where
  type : RioSymbolType_t
  data : Nat
deriving DecidableEq

/-- Receiver states, from `RioReceiverState_t` in `riostack.h` (lines 154-162). -/
inductive RioReceiverState_t where
  | RX_STATE_UNINITIALIZED
  | RX_STATE_PORT_INITIALIZED
  | RX_STATE_LINK_INITIALIZED
  | RX_STATE_INPUT_RETRY_STOPPED
  | RX_STATE_INPUT_ERROR_STOPPED
deriving DecidableEq

export RioReceiverState_t (RX_STATE_UNINITIALIZED RX_STATE_PORT_INITIALIZED
  RX_STATE_LINK_INITIALIZED RX_STATE_INPUT_RETRY_STOPPED RX_STATE_INPUT_ERROR_STOPPED)

/-- Transmitter states, from `RioTransmitterState_t` in `riostack.h` (lines 165-181). -/
inductive RioTransmitterState_t where
  | TX_STATE_UNINITIALIZED
  | TX_STATE_PORT_INITIALIZED
  | TX_STATE_LINK_INITIALIZED
  | TX_STATE_SEND_PACKET_RETRY
  | TX_STATE_SEND_PACKET_NOT_ACCEPTED
  | TX_STATE_SEND_LINK_RESPONSE
  | TX_STATE_OUTPUT_RETRY_STOPPED
  | TX_STATE_OUTPUT_ERROR_STOPPED
deriving DecidableEq

export RioTransmitterState_t (TX_STATE_UNINITIALIZED TX_STATE_PORT_INITIALIZED
  TX_STATE_LINK_INITIALIZED TX_STATE_SEND_PACKET_RETRY TX_STATE_SEND_PACKET_NOT_ACCEPTED
  TX_STATE_SEND_LINK_RESPONSE TX_STATE_OUTPUT_RETRY_STOPPED TX_STATE_OUTPUT_ERROR_STOPPED)

/-- Packet-not-accepted causes, from `RioStackPacketNotAcceptedCause_t`
in `riostack.h` (lines 203-214). -/
inductive RioStackPacketNotAcceptedCause_t where
  | PACKET_NOT_ACCEPTED_CAUSE_RESERVED
  | PACKET_NOT_ACCEPTED_CAUSE_UNEXPECTED_ACKID
  | PACKET_NOT_ACCEPTED_CAUSE_CONTROL_CRC
  | PACKET_NOT_ACCEPTED_CAUSE_NON_MAINTENANCE
  | PACKET_NOT_ACCEPTED_CAUSE_PACKET_CRC
  | PACKET_NOT_ACCEPTED_CAUSE_ILLEGAL_CHARACTER
  | PACKET_NOT_ACCEPTED_CAUSE_NO_RESOURCE
  | PACKET_NOT_ACCEPTED_CAUSE_DESCRAMBLER
  | PACKET_NOT_ACCEPTED_CAUSE_GENERAL
deriving DecidableEq

export RioStackPacketNotAcceptedCause_t (PACKET_NOT_ACCEPTED_CAUSE_RESERVED
  PACKET_NOT_ACCEPTED_CAUSE_UNEXPECTED_ACKID PACKET_NOT_ACCEPTED_CAUSE_CONTROL_CRC
  PACKET_NOT_ACCEPTED_CAUSE_NON_MAINTENANCE PACKET_NOT_ACCEPTED_CAUSE_PACKET_CRC
  PACKET_NOT_ACCEPTED_CAUSE_ILLEGAL_CHARACTER PACKET_NOT_ACCEPTED_CAUSE_NO_RESOURCE
  PACKET_NOT_ACCEPTED_CAUSE_DESCRAMBLER PACKET_NOT_ACCEPTED_CAUSE_GENERAL)

/-- The numeric code of each cause, as assigned in `riostack.h` (lines 203-214). -/
def causeCode : RioStackPacketNotAcceptedCause_t → Nat
  | PACKET_NOT_ACCEPTED_CAUSE_RESERVED => 0
  | PACKET_NOT_ACCEPTED_CAUSE_UNEXPECTED_ACKID => 1
  | PACKET_NOT_ACCEPTED_CAUSE_CONTROL_CRC => 2
  | PACKET_NOT_ACCEPTED_CAUSE_NON_MAINTENANCE => 3
  | PACKET_NOT_ACCEPTED_CAUSE_PACKET_CRC => 4
  | PACKET_NOT_ACCEPTED_CAUSE_ILLEGAL_CHARACTER => 5
  | PACKET_NOT_ACCEPTED_CAUSE_NO_RESOURCE => 6
  | PACKET_NOT_ACCEPTED_CAUSE_DESCRAMBLER => 7
  | PACKET_NOT_ACCEPTED_CAUSE_GENERAL => 31

/-- Modelled from the spec: `MAX_PACKET_WORDS` (= 69 words, spec section 3);
`riopacket.h` is not under `src/`, so the constant is taken from the spec. -/
def RIOPACKET_SIZE_MAX : Nat := 69

/-- Slot size in words for one packet plus its stored length,
from `riostack.h` line 124 (`RIOPACKET_SIZE_MAX + 1`). -/
def RIOSTACK_BUFFER_SIZE : Nat := RIOPACKET_SIZE_MAX + 1

/-- Modelled from the spec: the receiver link-initialization threshold
`N_STATUS_RX` (= 7 per RapidIO, spec section 4.C); defined in `riostack.c`,
which is not under `src/`. -/
def N_STATUS_RX : Nat := 7

/-- Modelled from the spec: the transmitter link-initialization threshold
`N_STATUS_TX` (= 15, spec section 4.D); defined in `riostack.c`,
which is not under `src/`. -/
def N_STATUS_TX : Nat := 15

/-- Modelled from the spec: the `txFrameState` value meaning that a new frame
may be started (spec section 4.D, framing). -/
def TX_FRAME_START : Nat := 0

/-- Modelled from the spec: the `txFrameState` value meaning that the packet
at the window is currently being emitted as data symbols (spec section 4.D). -/
def TX_FRAME_DATA : Nat := 1

/-- `uint32` truncation. -/
def u32 (x : Nat) : Nat := x % 4294967296

/-- `uint32` subtraction `a - b` with wrap-around, as computed by C on the
stored 32-bit values. -/
def u32sub (a b : Nat) : Nat := (a % 4294967296 + 4294967296 - b % 4294967296) % 4294967296

/-- One step of the RapidIO CRC-5 (polynomial 0x15, spec section 6) on a
single data bit, most-significant bit first. -/
def crc5step (crc b : Nat) : Nat :=
  (((crc % 16) * 2) ^^^ (((crc / 16 + b) % 2) * 21)) % 32

/-- Run `crc5step` over the top `k` bits of `db`, most-significant first. -/
def crc5bits : Nat → Nat → Nat → Nat
  | 0, crc, _ => crc
  | k + 1, crc, db => crc5bits k (crc5step crc ((db / 2 ^ k) % 2)) db

/-- The RapidIO control-symbol CRC-5 over the 19 data bits, seed 0x1F
(spec sections 4.B and 6). -/
def crc5 (db : Nat) : Nat := crc5bits 19 31 db % 32

/-- Modelled from the spec: pack the 19 control-symbol data bits
{stype0:3, parameter0:5, parameter1:5, stype1:3, cmd:3} (spec section 6). -/
def packControl (s0 p0 p1 st1 cmd : Nat) : Nat :=
  ((((s0 * 32 + p0) * 32 + p1) * 8 + st1) * 8 + cmd)

/-- Modelled from the spec: a full 24-bit control-symbol word, the 19 data
bits followed by their CRC-5 (spec sections 4.B and 6). -/
def encodeControl (s0 p0 p1 st1 cmd : Nat) : Nat :=
  packControl s0 p0 p1 st1 cmd * 32 + crc5 (packControl s0 p0 p1 st1 cmd)

/-- stype0 field of a 24-bit control word. -/
def getS0 (w : Nat) : Nat := w / 2097152 % 8

/-- parameter0 field of a 24-bit control word. -/
def getP0 (w : Nat) : Nat := w / 65536 % 32

/-- parameter1 field of a 24-bit control word. -/
def getP1 (w : Nat) : Nat := w / 2048 % 32

/-- stype1 field of a 24-bit control word. -/
def getSt1 (w : Nat) : Nat := w / 256 % 8

/-- cmd field of a 24-bit control word. -/
def getCmd (w : Nat) : Nat := w / 32 % 8

/-- Modelled from the spec: the CRC-5 check a received control symbol must
pass (spec section 4.B, control-symbol decode). -/
def crc5Check (w : Nat) : Bool := crc5 (w / 32) == w % 32

/-- One step of the CCITT CRC-16 (polynomial 0x1021, spec section 6) on a
single data bit, most-significant bit first. -/
def crc16step (crc b : Nat) : Nat :=
  (((crc % 32768) * 2) ^^^ (((crc / 32768 + b) % 2) * 4129)) % 65536

/-- Run `crc16step` over the top `k` bits of `w`, most-significant first. -/
def crc16bits : Nat → Nat → Nat → Nat
  | 0, crc, _ => crc
  | k + 1, crc, w => crc16bits k (crc16step crc ((w / 2 ^ k) % 2)) w

/-- Update a running CRC-16 with one 32-bit word. -/
def crc16word (crc w : Nat) : Nat := crc16bits 32 crc w

/-- The packet queue, from `RioQueue_t` in `riostack.h` (lines 189-198).
The word arena `buffer_p` is modelled as a list of packet slots, each slot
holding the packet words (the slot stores the length implicitly). -/
structure RioQueue_t where
  size : Nat
  available : Nat
  windowSize : Nat
  windowIndex : Nat
  frontIndex : Nat
  backIndex : Nat
  buffer : List (List Nat)
deriving DecidableEq

/-- Modelled from the spec: `usedCount()` of a queue (spec section 4.A);
the structure stores `size` and `available`, so used slots are their
difference. -/
def QUEUE_usedCount (q : RioQueue_t) : Nat := q.size - q.available

/-- Modelled from the spec: `availableCount()` of a queue (spec section 4.A). -/
def QUEUE_availableCount (q : RioQueue_t) : Nat := q.available

/-- Modelled from the spec: `windowOpen()` — there is a packet enqueued that
has not yet been sent (spec section 4.A). -/
def QUEUE_windowOpen (q : RioQueue_t) : Bool := q.windowSize < QUEUE_usedCount q

/-- Modelled from the spec: `enqueueBack(pkt)` (spec section 4.A); only valid
when `available > 0`, which every caller checks. -/
def QUEUE_enqueueBack (q : RioQueue_t) (pkt : List Nat) : RioQueue_t :=
  { q with buffer := q.buffer.set q.backIndex pkt,
           backIndex := (q.backIndex + 1) % q.size,
           available := q.available - 1 }

/-- Modelled from the spec: `getWindow()` — the packet to transmit next
(spec section 4.A). -/
def QUEUE_getWindow (q : RioQueue_t) : List Nat := q.buffer.getD q.windowIndex []

/-- Modelled from the spec: `advanceWindow()` — move the send pointer forward
(spec section 4.A); the `windowSize` bookkeeping is done by the framing code
(spec section 4.D). -/
def QUEUE_advanceWindow (q : RioQueue_t) : RioQueue_t :=
  { q with windowIndex := (q.windowIndex + 1) % q.size }

/-- Modelled from the spec: `rewindWindow()` — `windowIndex := frontIndex`
and `windowSize := 0` (spec section 4.A). -/
def QUEUE_rewindWindow (q : RioQueue_t) : RioQueue_t :=
  { q with windowIndex := q.frontIndex, windowSize := 0 }

/-- Modelled from the spec: `discardFront()` — release the front slot on
acknowledgement (spec section 4.A); the `windowSize` bookkeeping is done by
the acknowledgement handling (spec section 4.D). -/
def QUEUE_discardFront (q : RioQueue_t) : RioQueue_t :=
  { q with frontIndex := (q.frontIndex + 1) % q.size, available := q.available + 1 }

/-- Modelled from the spec: read the front packet of a queue (spec section 4.A). -/
def QUEUE_getFront (q : RioQueue_t) : List Nat := q.buffer.getD q.frontIndex []

/-- The stack instance, from `RioStack_t` in `riostack.h` (lines 219-333).
The `private` user pointer is not part of the protocol state and is omitted.
`txFrameTimeout[32]` is a 32-entry list indexed by ackId. -/
structure RioStack_t where
  rxState : RioReceiverState_t
  rxCounter : Nat
  rxCrc : Nat
  rxStatusReceived : Nat
  rxAckId : Nat
  rxAckIdAcked : Nat
  rxErrorCause : RioStackPacketNotAcceptedCause_t
  rxQueue : RioQueue_t
  txState : RioTransmitterState_t
  txCounter : Nat
  txStatusCounter : Nat
  txFrameState : Nat
  txFrameTimeout : List Nat
  txAckId : Nat
  txAckIdWindow : Nat
  txBufferStatus : Nat
  txQueue : RioQueue_t
  portTime : Nat
  portTimeout : Nat
  statusInboundPacketComplete : Nat
  statusInboundPacketRetry : Nat
  statusInboundErrorControlCrc : Nat
  statusInboundErrorPacketAckId : Nat
  statusInboundErrorPacketCrc : Nat
  statusInboundErrorIllegalCharacter : Nat
  statusInboundErrorGeneral : Nat
  statusInboundErrorPacketUnsupported : Nat
  statusOutboundPacketComplete : Nat
  statusOutboundLinkLatencyMax : Nat
  statusOutboundPacketRetry : Nat
  statusOutboundErrorTimeout : Nat
  statusOutboundErrorPacketAccepted : Nat
  statusOutboundErrorPacketRetry : Nat
  statusPartnerLinkRequest : Nat
  statusPartnerErrorControlCrc : Nat
  statusPartnerErrorPacketAckId : Nat
  statusPartnerErrorPacketCrc : Nat
  statusPartnerErrorIllegalCharacter : Nat
  statusPartnerErrorGeneral : Nat
deriving DecidableEq

/-- A fresh queue of `n` slots over a caller-supplied arena. -/
def newQueue (n : Nat) : RioQueue_t :=
  { size := n, available := n, windowSize := 0, windowIndex := 0,
    frontIndex := 0, backIndex := 0, buffer := List.replicate n [] }

/-- Modelled from the spec: `RIOSTACK_open` (header lines 340-364,
spec section 6): initialize all variables; capacities in slots are
`bufferSize / (MAX_PACKET_WORDS+1)`. -/
def RIOSTACK_open (rxPacketBufferSize txPacketBufferSize : Nat) : RioStack_t :=
  { rxState := RX_STATE_UNINITIALIZED, rxCounter := 0, rxCrc := 65535,
    rxStatusReceived := 0, rxAckId := 0, rxAckIdAcked := 0,
    rxErrorCause := PACKET_NOT_ACCEPTED_CAUSE_RESERVED,
    rxQueue := newQueue (rxPacketBufferSize / RIOSTACK_BUFFER_SIZE),
    txState := TX_STATE_UNINITIALIZED, txCounter := 0, txStatusCounter := 0,
    txFrameState := TX_FRAME_START, txFrameTimeout := List.replicate 32 0,
    txAckId := 0, txAckIdWindow := 0, txBufferStatus := 0,
    txQueue := newQueue (txPacketBufferSize / RIOSTACK_BUFFER_SIZE),
    portTime := 0, portTimeout := 0,
    statusInboundPacketComplete := 0, statusInboundPacketRetry := 0,
    statusInboundErrorControlCrc := 0, statusInboundErrorPacketAckId := 0,
    statusInboundErrorPacketCrc := 0, statusInboundErrorIllegalCharacter := 0,
    statusInboundErrorGeneral := 0, statusInboundErrorPacketUnsupported := 0,
    statusOutboundPacketComplete := 0, statusOutboundLinkLatencyMax := 0,
    statusOutboundPacketRetry := 0, statusOutboundErrorTimeout := 0,
    statusOutboundErrorPacketAccepted := 0, statusOutboundErrorPacketRetry := 0,
    statusPartnerLinkRequest := 0, statusPartnerErrorControlCrc := 0,
    statusPartnerErrorPacketAckId := 0, statusPartnerErrorPacketCrc := 0,
    statusPartnerErrorIllegalCharacter := 0, statusPartnerErrorGeneral := 0 }

/-- `RIOSTACK_getLinkIsInitialized` (header lines 371-380): non-zero iff
both the transmitter and the receiver are in their `LINK_INITIALIZED` state
(spec section 4.E). -/
def RIOSTACK_getLinkIsInitialized (s : RioStack_t) : Nat :=
  if s.txState = TX_STATE_LINK_INITIALIZED ∧ s.rxState = RX_STATE_LINK_INITIALIZED
  then 1 else 0

/-- Modelled from the spec: `RIOSTACK_getStatus` (header lines 382-385) is the
deprecated alias of `RIOSTACK_getLinkIsInitialized`; its body lives in
`riostack.c`, which is not under `src/`, so it is modelled from the header
note. -/
def RIOSTACK_getStatus (s : RioStack_t) : Nat := RIOSTACK_getLinkIsInitialized s

/-- `RIOSTACK_getOutboundQueueLength` (header lines 387-396). -/
def RIOSTACK_getOutboundQueueLength (s : RioStack_t) : Nat := QUEUE_usedCount s.txQueue

/-- `RIOSTACK_getOutboundQueueAvailable` (header lines 398-407). -/
def RIOSTACK_getOutboundQueueAvailable (s : RioStack_t) : Nat :=
  QUEUE_availableCount s.txQueue

/-- `RIOSTACK_getInboundQueueLength` (header lines 427-436). -/
def RIOSTACK_getInboundQueueLength (s : RioStack_t) : Nat := QUEUE_usedCount s.rxQueue

/-- `RIOSTACK_getInboundQueueAvailable` (header lines 438-447). -/
def RIOSTACK_getInboundQueueAvailable (s : RioStack_t) : Nat :=
  QUEUE_availableCount s.rxQueue

/-- Modelled from the spec: `RIOSTACK_setOutboundPacket` (header lines
409-425, spec section 6): copy the packet into the outbound queue;
precondition `getOutboundQueueAvailable > 0` is checked defensively. -/
def RIOSTACK_setOutboundPacket (s : RioStack_t) (packet : List Nat) : RioStack_t :=
  if 0 < s.txQueue.available then { s with txQueue := QUEUE_enqueueBack s.txQueue packet }
  else s

/-- Modelled from the spec: `RIOSTACK_getInboundPacket` (header lines 449-458,
spec section 6): move the next packet out of the inbound queue; precondition
`getInboundQueueLength > 0` is checked defensively. -/
def RIOSTACK_getInboundPacket (s : RioStack_t) : RioStack_t × List Nat :=
  if 0 < QUEUE_usedCount s.rxQueue then
    ({ s with rxQueue := { s.rxQueue with
          frontIndex := (s.rxQueue.frontIndex + 1) % s.rxQueue.size,
          available := s.rxQueue.available + 1 } },
     QUEUE_getFront s.rxQueue)
  else (s, [])

/-- Modelled from the spec: `RIOSTACK_portSetTime` (header lines 464-476). -/
def RIOSTACK_portSetTime (s : RioStack_t) (timer : Nat) : RioStack_t :=
  { s with portTime := u32 timer }

/-- Modelled from the spec: `RIOSTACK_portSetTimeout` (header lines 478-492). -/
def RIOSTACK_portSetTimeout (s : RioStack_t) (timer : Nat) : RioStack_t :=
  { s with portTimeout := u32 timer }

/-- Modelled from the spec: `RIOSTACK_portSetStatus` (header lines 494-508,
spec sections 4.C, 4.E, 7): a non-zero argument moves both state machines
from `UNINITIALIZED` to `PORT_INITIALIZED`; a zero argument resets both state
machines to `UNINITIALIZED`, zeroes the status-symbol counters and rewinds
the outbound window while preserving the queued packets.  The rewind forces
`txAckIdWindow := txAckId` so that the in-flight range matches the empty
window (spec section 8 invariant `windowSize == (txAckIdWindow − txAckId)
mod 32`). -/
def RIOSTACK_portSetStatus (s : RioStack_t) (initialized : Nat) : RioStack_t :=
  if initialized ≠ 0 then
    if s.rxState = RX_STATE_UNINITIALIZED then
      { s with rxState := RX_STATE_PORT_INITIALIZED, rxCounter := 0, rxStatusReceived := 0,
               txState := TX_STATE_PORT_INITIALIZED, txCounter := 0, txStatusCounter := 0,
               txFrameState := TX_FRAME_START }
    else s
  else
    { s with rxState := RX_STATE_UNINITIALIZED, txState := TX_STATE_UNINITIALIZED,
             rxStatusReceived := 0, txStatusCounter := 0,
             txQueue := QUEUE_rewindWindow s.txQueue, txAckIdWindow := s.txAckId }

/-- Modelled from the spec: enter `INPUT_ERROR_STOPPED` with the given cause
and demand a packet-not-accepted control symbol from the transmitter
(spec section 4.C). -/
def rxErrorStop (s : RioStack_t) (cause : RioStackPacketNotAcceptedCause_t) : RioStack_t :=
  { s with rxState := RX_STATE_INPUT_ERROR_STOPPED, rxErrorCause := cause,
           txState := TX_STATE_SEND_PACKET_NOT_ACCEPTED, rxCounter := 0 }

/-- Modelled from the spec: receiver handling of an error symbol — the codec
reported an illegal character (spec sections 4.C and 7). -/
def handleSymbolError (s : RioStack_t) : RioStack_t :=
  if s.rxState = RX_STATE_LINK_INITIALIZED then
    rxErrorStop
      { s with statusInboundErrorIllegalCharacter :=
          (s.statusInboundErrorIllegalCharacter + 1) % 4294967296 }
      PACKET_NOT_ACCEPTED_CAUSE_ILLEGAL_CHARACTER
  else s

/-- The link-local ackId carried in the first word of an assembled inbound
packet (top five bits). -/
def inboundAckId (pkt : List Nat) : Nat := pkt.headD 0 / 134217728 % 32

/-- Clear the link-local ackId bits of the first word before the packet is
handed to the upper layer. -/
def maskFirstAckId : List Nat → List Nat
  | [] => []
  | w :: ws => (w % 134217728) :: ws

/-- Modelled from the spec: receiver handling of a data symbol — accumulate
the word into the packet under assembly at `backIndex`, incrementing
`rxCounter` and updating `rxCrc`; a word beyond `MAX_PACKET_WORDS` is a
too-long packet, cause GENERAL (spec sections 4.C and 7). -/
def handleSymbolData (s : RioStack_t) (w : Nat) : RioStack_t :=
  if s.rxState = RX_STATE_LINK_INITIALIZED then
    if RIOPACKET_SIZE_MAX ≤ s.rxCounter then
      rxErrorStop
        { s with statusInboundErrorGeneral := (s.statusInboundErrorGeneral + 1) % 4294967296 }
        PACKET_NOT_ACCEPTED_CAUSE_GENERAL
    else
      let slot := s.rxQueue.buffer.getD s.rxQueue.backIndex []
      let q := { s.rxQueue with buffer := s.rxQueue.buffer.set s.rxQueue.backIndex (slot ++ [u32 w]) }
      { s with rxCounter := (s.rxCounter + 1) % 256,
               rxCrc := crc16word s.rxCrc (if s.rxCounter = 0 then u32 w % 134217728 else u32 w),
               rxQueue := q }
  else s

/-- Modelled from the spec: handling of the stype0 part of a valid control
symbol (spec sections 4.C and 4.D).  stype0 codes follow RapidIO Part 6 as
the spec prescribes: 0 packet-accepted, 1 packet-retry, 2 packet-not-accepted,
4 status, 6 link-response.
* status: record the partner buffer status; while `PORT_INITIALIZED`, count it
  and enter `LINK_INITIALIZED` at `N_STATUS_RX` (spec section 4.C).
* packet-accepted: if it matches `txAckId` (with a packet in flight), release
  the front packet, shrink the window, advance `txAckId`, record the link
  latency and count the completion; otherwise count the unexpected
  packet-accepted and go to `OUTPUT_ERROR_STOPPED` (spec section 4.D).  The
  spec describes the handling only with packets in flight; an accepted ackId
  with an empty window is treated as unexpected.
* packet-retry: required to equal `txAckId`, else counted and error-stopped;
  otherwise rewind the window and enter `OUTPUT_RETRY_STOPPED`
  (spec section 4.D).
* packet-not-accepted: `LINK_INITIALIZED → OUTPUT_ERROR_STOPPED`
  (spec section 4.D).
* link-response: while `OUTPUT_ERROR_STOPPED`, align `txAckId` to the
  partner's expected ackId, rewind the window and resume (spec section 4.D);
  `txAckIdWindow` follows `txAckId` per the spec section 8 window invariant. -/
def handleStype0 (s : RioStack_t) (s0 p0 p1 : Nat) : RioStack_t :=
  if s0 = 4 then
    let s1 := { s with txBufferStatus := p1 }
    if s1.rxState = RX_STATE_PORT_INITIALIZED then
      if N_STATUS_RX ≤ (s1.rxStatusReceived + 1) % 256 then
        { s1 with rxStatusReceived := (s1.rxStatusReceived + 1) % 256,
                  rxState := RX_STATE_LINK_INITIALIZED }
      else { s1 with rxStatusReceived := (s1.rxStatusReceived + 1) % 256 }
    else s1
  else if s0 = 0 then
    if s.txState = TX_STATE_LINK_INITIALIZED then
      if p0 = s.txAckId ∧ s.txQueue.windowSize ≠ 0 then
        { s with txQueue := { s.txQueue with
                    frontIndex := (s.txQueue.frontIndex + 1) % s.txQueue.size,
                    available := s.txQueue.available + 1,
                    windowSize := s.txQueue.windowSize - 1 },
                 txAckId := (s.txAckId + 1) % 32,
                 statusOutboundLinkLatencyMax :=
                   max s.statusOutboundLinkLatencyMax
                     (u32sub s.portTime (s.txFrameTimeout.getD p0 0)),
                 statusOutboundPacketComplete :=
                   (s.statusOutboundPacketComplete + 1) % 4294967296 }
      else
        { s with statusOutboundErrorPacketAccepted :=
                   (s.statusOutboundErrorPacketAccepted + 1) % 4294967296,
                 txState := TX_STATE_OUTPUT_ERROR_STOPPED }
    else s
  else if s0 = 1 then
    if s.txState = TX_STATE_LINK_INITIALIZED then
      if p0 = s.txAckId then
        { s with statusOutboundPacketRetry := (s.statusOutboundPacketRetry + 1) % 4294967296,
                 txState := TX_STATE_OUTPUT_RETRY_STOPPED,
                 txQueue := QUEUE_rewindWindow s.txQueue, txAckIdWindow := s.txAckId,
                 txFrameState := TX_FRAME_START, txCounter := 0 }
      else
        { s with statusOutboundErrorPacketRetry :=
                   (s.statusOutboundErrorPacketRetry + 1) % 4294967296,
                 txState := TX_STATE_OUTPUT_ERROR_STOPPED }
    else s
  else if s0 = 2 then
    if s.txState = TX_STATE_LINK_INITIALIZED then
      { s with txState := TX_STATE_OUTPUT_ERROR_STOPPED }
    else s
  else if s0 = 6 then
    if s.txState = TX_STATE_OUTPUT_ERROR_STOPPED then
      { s with txAckId := p0, txAckIdWindow := p0,
               txQueue := QUEUE_rewindWindow s.txQueue,
               txState := TX_STATE_LINK_INITIALIZED,
               txFrameState := TX_FRAME_START, txCounter := 0 }
    else s
  else s

/-- Modelled from the spec: handling of the stype1 part of a valid control
symbol by the receiver (spec section 4.C).  stype1 codes follow RapidIO
Part 6 as the spec prescribes: 0 start-of-packet, 1 stomp, 2 end-of-packet,
3 restart-from-retry, 4 link-request.
* While `LINK_INITIALIZED`: start-of-packet with no available inbound slot
  enters `INPUT_RETRY_STOPPED` and demands a packet-retry; otherwise it opens
  packet assembly.  End-of-packet verifies length bounds, the packet CRC and
  the ackId, then enqueues the packet, advances `rxAckId` and counts the
  completion; each failure enters `INPUT_ERROR_STOPPED` with its cause.
  A link-request is counted and makes the transmitter send a link-response.
* While `INPUT_RETRY_STOPPED`: only restart-from-retry is acted on, returning
  the receiver to `LINK_INITIALIZED`; everything else is dropped.
* While `INPUT_ERROR_STOPPED`: only link-request is acted on, demanding a
  link-response; everything else is dropped. -/
def handleStype1 (s : RioStack_t) (st1 cmd : Nat) : RioStack_t :=
  match s.rxState with
  | RX_STATE_LINK_INITIALIZED =>
    if st1 = 0 then
      if s.rxQueue.available = 0 then
        { s with rxState := RX_STATE_INPUT_RETRY_STOPPED,
                 rxErrorCause := PACKET_NOT_ACCEPTED_CAUSE_NO_RESOURCE,
                 txState := TX_STATE_SEND_PACKET_RETRY, rxCounter := 0,
                 statusInboundPacketRetry := (s.statusInboundPacketRetry + 1) % 4294967296 }
      else
        let q := { s.rxQueue with buffer := s.rxQueue.buffer.set s.rxQueue.backIndex [] }
        { s with rxCounter := 0, rxCrc := 65535, rxQueue := q }
    else if st1 = 1 then
      { s with rxCounter := 0 }
    else if st1 = 2 then
      if s.rxCounter < 3 then
        rxErrorStop
          { s with statusInboundErrorGeneral := (s.statusInboundErrorGeneral + 1) % 4294967296 }
          PACKET_NOT_ACCEPTED_CAUSE_GENERAL
      else if ¬ s.rxCrc = 0 then
        rxErrorStop
          { s with statusInboundErrorPacketCrc :=
              (s.statusInboundErrorPacketCrc + 1) % 4294967296 }
          PACKET_NOT_ACCEPTED_CAUSE_PACKET_CRC
      else if ¬ inboundAckId (s.rxQueue.buffer.getD s.rxQueue.backIndex []) = s.rxAckId then
        rxErrorStop
          { s with statusInboundErrorPacketAckId :=
              (s.statusInboundErrorPacketAckId + 1) % 4294967296 }
          PACKET_NOT_ACCEPTED_CAUSE_UNEXPECTED_ACKID
      else
        { s with rxQueue := { s.rxQueue with
                   buffer := s.rxQueue.buffer.set s.rxQueue.backIndex
                     (maskFirstAckId (s.rxQueue.buffer.getD s.rxQueue.backIndex [])),
                   backIndex := (s.rxQueue.backIndex + 1) % s.rxQueue.size,
                   available := s.rxQueue.available - 1 },
                 rxAckId := (s.rxAckId + 1) % 32, rxCounter := 0,
                 statusInboundPacketComplete :=
                   (s.statusInboundPacketComplete + 1) % 4294967296 }
    else if st1 = 4 then
      { s with statusPartnerLinkRequest := (s.statusPartnerLinkRequest + 1) % 4294967296,
               txState := TX_STATE_SEND_LINK_RESPONSE, rxCounter := 0 }
    else s
  | RX_STATE_INPUT_RETRY_STOPPED =>
    if st1 = 3 then { s with rxState := RX_STATE_LINK_INITIALIZED, rxCounter := 0 } else s
  | RX_STATE_INPUT_ERROR_STOPPED =>
    if st1 = 4 then
      { s with statusPartnerLinkRequest := (s.statusPartnerLinkRequest + 1) % 4294967296,
               txState := TX_STATE_SEND_LINK_RESPONSE, rxCounter := 0 }
    else s
  | _ => s

/-- Modelled from the spec: handling of a received control symbol — check the
CRC-5, counting a failure (and error-stopping the receiver when link
traffic is active), else act on the stype0 and stype1 parts
(spec sections 4.B and 4.C). -/
def handleSymbolControl (s : RioStack_t) (d : Nat) : RioStack_t :=
  let cw := d % 16777216
  if crc5Check cw then
    handleStype1 (handleStype0 s (getS0 cw) (getP0 cw) (getP1 cw)) (getSt1 cw) (getCmd cw)
  else
    let s1 := { s with statusInboundErrorControlCrc :=
                  (s.statusInboundErrorControlCrc + 1) % 4294967296 }
    if s1.rxState = RX_STATE_LINK_INITIALIZED then
      rxErrorStop s1 PACKET_NOT_ACCEPTED_CAUSE_CONTROL_CRC
    else s1

/-- Modelled from the spec: `RIOSTACK_portAddSymbol` (header lines 510-520,
spec sections 4.C and 4.D): consume one symbol and update the state machines. -/
def RIOSTACK_portAddSymbol (s : RioStack_t) (symbol : RioSymbol_t) : RioStack_t :=
  match symbol.type with
  | RIOSTACK_SYMBOL_TYPE_IDLE => s
  | RIOSTACK_SYMBOL_TYPE_ERROR => handleSymbolError s
  | RIOSTACK_SYMBOL_TYPE_DATA => handleSymbolData s symbol.data
  | RIOSTACK_SYMBOL_TYPE_CONTROL => handleSymbolControl s symbol.data

/-- The circular distance from ackId `a` to ackId `b` in the 32-slot space. -/
def ackIdDistance (a b : Nat) : Nat := (b % 32 + 32 - a % 32) % 32

/-- The ackIds currently in flight: the range `[txAckId, txAckIdWindow)`
modulo 32 (spec sections 4.D and 8). -/
def inFlightIds (s : RioStack_t) : List Nat :=
  (List.range (ackIdDistance s.txAckId s.txAckIdWindow)).map (fun k => (s.txAckId + k) % 32)

/-- Modelled from the spec: the per-packet timeout test — the packet with the
given ackId has waited at least `portTimeout` (spec section 4.D). -/
def frameExpired (s : RioStack_t) (id : Nat) : Bool :=
  s.portTimeout ≤ u32sub s.portTime (s.txFrameTimeout.getD id 0)

/-- Modelled from the spec: some in-flight packet has expired (spec
section 4.D, timeout check). -/
def txExpired (s : RioStack_t) : Bool := (inFlightIds s).any (frameExpired s)

/-- Modelled from the spec: the timeout check run on every `portGetSymbol`
(spec section 4.D): when any in-flight ackId has expired, enter
`OUTPUT_ERROR_STOPPED` and count the timeout. -/
def timeoutScan (s : RioStack_t) : RioStack_t :=
  if txExpired s then
    { s with txState := TX_STATE_OUTPUT_ERROR_STOPPED,
             statusOutboundErrorTimeout := (s.statusOutboundErrorTimeout + 1) % 4294967296 }
  else s

/-- The idle symbol. -/
def idleSymbol : RioSymbol_t := { type := RIOSTACK_SYMBOL_TYPE_IDLE, data := 0 }

/-- The buffer status advertised to the partner: free inbound slots,
saturated at the 5-bit maximum. -/
def bufStatus (s : RioStack_t) : Nat := min s.rxQueue.available 31

/-- A status control symbol (stype0 = status, stype1 = NOP), carrying
`rxAckId` and the buffer status (spec sections 4.D and 6). -/
def statusSymbol (s : RioStack_t) : RioSymbol_t :=
  { type := RIOSTACK_SYMBOL_TYPE_CONTROL,
    data := encodeControl 4 (s.rxAckId % 32) (bufStatus s) 7 0 }

/-- A packet-accepted control symbol for `rxAckIdAcked` (spec section 4.D). -/
def packetAcceptedSymbol (s : RioStack_t) : RioSymbol_t :=
  { type := RIOSTACK_SYMBOL_TYPE_CONTROL,
    data := encodeControl 0 (s.rxAckIdAcked % 32) (bufStatus s) 7 0 }

/-- A packet-retry control symbol targeted at `rxAckId`, the refused ackId
(spec sections 4.C and 4.D). -/
def packetRetrySymbol (s : RioStack_t) : RioSymbol_t :=
  { type := RIOSTACK_SYMBOL_TYPE_CONTROL,
    data := encodeControl 1 (s.rxAckId % 32) (bufStatus s) 7 0 }

/-- A packet-not-accepted control symbol carrying `rxErrorCause`
(spec sections 4.C and 7). -/
def packetNotAcceptedSymbol (s : RioStack_t) : RioSymbol_t :=
  { type := RIOSTACK_SYMBOL_TYPE_CONTROL,
    data := encodeControl 2 0 (causeCode s.rxErrorCause) 7 0 }

/-- A link-request(input-status) control symbol (spec section 4.D). -/
def linkRequestSymbol (s : RioStack_t) : RioSymbol_t :=
  { type := RIOSTACK_SYMBOL_TYPE_CONTROL,
    data := encodeControl 4 (s.rxAckId % 32) (bufStatus s) 4 4 }

/-- A link-response control symbol carrying `rxAckId` and an OK port status
(spec sections 4.C and 4.D). -/
def linkResponseSymbol (s : RioStack_t) : RioSymbol_t :=
  { type := RIOSTACK_SYMBOL_TYPE_CONTROL,
    data := encodeControl 6 (s.rxAckId % 32) 16 7 0 }

/-- A restart-from-retry control symbol (spec section 4.D). -/
def restartFromRetrySymbol (s : RioStack_t) : RioSymbol_t :=
  { type := RIOSTACK_SYMBOL_TYPE_CONTROL,
    data := encodeControl 4 (s.rxAckId % 32) (bufStatus s) 3 0 }

/-- A start-of-packet control symbol (spec section 4.D, framing). -/
def sopSymbol (s : RioStack_t) : RioSymbol_t :=
  { type := RIOSTACK_SYMBOL_TYPE_CONTROL,
    data := encodeControl 4 (s.rxAckId % 32) (bufStatus s) 0 0 }

/-- An end-of-packet control symbol (spec section 4.D, framing). -/
def eopSymbol (s : RioStack_t) : RioSymbol_t :=
  { type := RIOSTACK_SYMBOL_TYPE_CONTROL,
    data := encodeControl 4 (s.rxAckId % 32) (bufStatus s) 2 0 }

/-- The data word at position `i` of the framed packet; word 0 carries the
link-local ackId `txAckIdWindow` in its top five bits (spec section 4.D). -/
def frameWord (s : RioStack_t) (pkt : List Nat) (i : Nat) : Nat :=
  if i = 0 then pkt.getD 0 0 % 134217728 + s.txAckIdWindow % 32 * 134217728
  else pkt.getD i 0 % 4294967296

/-- Modelled from the spec: the transmitter emission step of `portGetSymbol`
after the timeout check, following the emission priority of spec section 4.D:
receiver-demanded control symbols, pending packet-accepted symbols, the data
words of the packet being framed, a new frame when the window and the partner
buffer allow it, else idle.  The init states emit status symbols
(`PORT_INITIALIZED → LINK_INITIALIZED` once `N_STATUS_TX` status symbols are
out and the receiver is link-initialized); `OUTPUT_RETRY_STOPPED` emits
restart-from-retry and returns to `LINK_INITIALIZED`; `OUTPUT_ERROR_STOPPED`
emits link-request(input-status); `SEND_LINK_RESPONSE` also releases a
receiver waiting in `INPUT_ERROR_STOPPED` (spec section 4.C).  Completing a
frame records `txFrameTimeout[txAckIdWindow] := portTime`, advances
`txAckIdWindow`, grows the window and advances the queue window pointer. -/
def txEmit (s : RioStack_t) : RioStack_t × RioSymbol_t :=
  match s.txState with
  | TX_STATE_UNINITIALIZED => (s, idleSymbol)
  | TX_STATE_PORT_INITIALIZED =>
    let s1 := { s with txStatusCounter := (s.txStatusCounter + 1) % 65536 }
    if N_STATUS_TX ≤ s1.txStatusCounter ∧ s1.rxState = RX_STATE_LINK_INITIALIZED then
      ({ s1 with txState := TX_STATE_LINK_INITIALIZED,
                 txFrameState := TX_FRAME_START, txCounter := 0 }, statusSymbol s)
    else (s1, statusSymbol s)
  | TX_STATE_SEND_PACKET_RETRY =>
    ({ s with txState := TX_STATE_LINK_INITIALIZED }, packetRetrySymbol s)
  | TX_STATE_SEND_PACKET_NOT_ACCEPTED =>
    ({ s with txState := TX_STATE_LINK_INITIALIZED }, packetNotAcceptedSymbol s)
  | TX_STATE_SEND_LINK_RESPONSE =>
    ({ s with txState := TX_STATE_LINK_INITIALIZED,
              rxState := if s.rxState = RX_STATE_INPUT_ERROR_STOPPED
                         then RX_STATE_LINK_INITIALIZED else s.rxState },
     linkResponseSymbol s)
  | TX_STATE_OUTPUT_RETRY_STOPPED =>
    ({ s with txState := TX_STATE_LINK_INITIALIZED }, restartFromRetrySymbol s)
  | TX_STATE_OUTPUT_ERROR_STOPPED => (s, linkRequestSymbol s)
  | TX_STATE_LINK_INITIALIZED =>
    if s.rxAckIdAcked ≠ s.rxAckId then
      ({ s with rxAckIdAcked := (s.rxAckIdAcked + 1) % 32 }, packetAcceptedSymbol s)
    else if s.txFrameState = TX_FRAME_DATA then
      if s.txCounter < (QUEUE_getWindow s.txQueue).length then
        ({ s with txCounter := s.txCounter + 1 },
         { type := RIOSTACK_SYMBOL_TYPE_DATA,
           data := frameWord s (QUEUE_getWindow s.txQueue) s.txCounter })
      else
        ({ s with txFrameTimeout := s.txFrameTimeout.set (s.txAckIdWindow % 32) s.portTime,
                  txAckIdWindow := (s.txAckIdWindow + 1) % 32,
                  txQueue := { QUEUE_advanceWindow s.txQueue with
                               windowSize := s.txQueue.windowSize + 1 },
                  txFrameState := TX_FRAME_START, txCounter := 0 }, eopSymbol s)
    else if QUEUE_windowOpen s.txQueue ∧ s.txQueue.windowSize < 32 ∧ 0 < s.txBufferStatus then
      ({ s with txFrameState := TX_FRAME_DATA, txCounter := 0 }, sopSymbol s)
    else (s, idleSymbol)

/-- Modelled from the spec: `RIOSTACK_portGetSymbol` (header lines 522-531,
spec section 4.D): run the timeout check, then emit the next symbol by the
emission priority. -/
def RIOSTACK_portGetSymbol (s : RioStack_t) : RioStack_t × RioSymbol_t :=
  txEmit (timeoutScan s)

/-- Recognize a valid restart-from-retry control symbol. -/
def isRestartFromRetry (x : RioSymbol_t) : Bool :=
  match x.type with
  | RIOSTACK_SYMBOL_TYPE_CONTROL =>
    crc5Check (x.data % 16777216) && (getSt1 (x.data % 16777216) == 3)
  | _ => false

/-- The states a stack can be in after any sequence of API calls: a freshly
opened stack, closed under every API operation (spec sections 5 and 6). -/
inductive Reachable : RioStack_t → Prop where
  | opened (rxSize txSize : Nat) : Reachable (RIOSTACK_open rxSize txSize)
  | addSymbol {s : RioStack_t} (sym : RioSymbol_t) :
      Reachable s → Reachable (RIOSTACK_portAddSymbol s sym)
  | getSymbol {s : RioStack_t} :
      Reachable s → Reachable (RIOSTACK_portGetSymbol s).1
  | setTime {s : RioStack_t} (t : Nat) :
      Reachable s → Reachable (RIOSTACK_portSetTime s t)
  | setTimeout {s : RioStack_t} (t : Nat) :
      Reachable s → Reachable (RIOSTACK_portSetTimeout s t)
  | setStatus {s : RioStack_t} (b : Nat) :
      Reachable s → Reachable (RIOSTACK_portSetStatus s b)
  | setOutbound {s : RioStack_t} (p : List Nat) :
      Reachable s → Reachable (RIOSTACK_setOutboundPacket s p)
  | getInbound {s : RioStack_t} :
      Reachable s → Reachable (RIOSTACK_getInboundPacket s).1

/-- The queue bookkeeping invariant: the free count never exceeds the
capacity, and the unacknowledged window fits in the used slots. -/
def QueueInv (q : RioQueue_t) : Prop :=
  q.available ≤ q.size ∧ q.windowSize ≤ q.size - q.available

/-- The inductive stack invariant: queue bookkeeping on both sides, no window
on ingress, the status-symbol count stays below the threshold until the
receiver leaves `PORT_INITIALIZED` and at least the threshold afterwards,
and a strict window bound while a frame is being emitted. -/
def StackInv (s : RioStack_t) : Prop :=
  QueueInv s.rxQueue ∧ QueueInv s.txQueue ∧ s.rxQueue.windowSize = 0 ∧
  (s.rxState = RX_STATE_PORT_INITIALIZED → s.rxStatusReceived ≤ 6) ∧
  ((s.rxState = RX_STATE_LINK_INITIALIZED ∨ s.rxState = RX_STATE_INPUT_RETRY_STOPPED ∨
    s.rxState = RX_STATE_INPUT_ERROR_STOPPED) → N_STATUS_RX ≤ s.rxStatusReceived) ∧
  (s.txFrameState = TX_FRAME_DATA → s.txQueue.windowSize < QUEUE_usedCount s.txQueue)

/-- The effect claimed for a packet-accepted control symbol whose ackId
matches `txAckId` (spec section 4.D): the front packet is released, the
window shrinks by one, `txAckId` advances modulo 32, the link-latency maximum
absorbs `portTime − txFrameTimeout[a]`, and the completion counter steps. -/
def packetAcceptedMatchEffect (s s2 : RioStack_t) (a : Nat) : Prop :=
  s2.txQueue.frontIndex = (s.txQueue.frontIndex + 1) % s.txQueue.size ∧
  s2.txQueue.available = s.txQueue.available + 1 ∧
  s2.txQueue.buffer = s.txQueue.buffer ∧
  s2.txQueue.windowSize = s.txQueue.windowSize - 1 ∧
  s2.txAckId = (s.txAckId + 1) % 32 ∧
  s2.statusOutboundLinkLatencyMax =
    max s.statusOutboundLinkLatencyMax (u32sub s.portTime (s.txFrameTimeout.getD a 0)) ∧
  s2.statusOutboundPacketComplete = (s.statusOutboundPacketComplete + 1) % 4294967296

/-- The effect claimed for a packet-accepted control symbol whose ackId does
not match `txAckId` (spec section 4.D): count the unexpected packet-accepted
and stop the transmitter with an output error. -/
def packetAcceptedMismatchEffect (s s2 : RioStack_t) : Prop :=
  s2.statusOutboundErrorPacketAccepted = (s.statusOutboundErrorPacketAccepted + 1) % 4294967296 ∧
  s2.txState = TX_STATE_OUTPUT_ERROR_STOPPED

/-- After the receiver refuses a start-of-packet for lack of buffers
(spec section 4.C): it is input-retry-stopped, the transmitter owes a
packet-retry symbol, the refused ackId is unchanged and the inbound queue is
untouched. -/
def noResourceDemandEffect (s s2 : RioStack_t) : Prop :=
  s2.rxState = RX_STATE_INPUT_RETRY_STOPPED ∧
  s2.txState = TX_STATE_SEND_PACKET_RETRY ∧
  s2.rxAckId = s.rxAckId ∧
  s2.rxQueue = s.rxQueue ∧
  (s2.txAckIdWindow % 32 = s2.txAckId % 32 →
    (RIOSTACK_portGetSymbol s2).2 = packetRetrySymbol s2)

/-- While input-retry-stopped, every symbol that is not a valid
restart-from-retry is dropped with no effect on the inbound queue
(spec section 4.C). -/
def retryStoppedDropEffect (s2 : RioStack_t) : Prop :=
  ∀ syms : List RioSymbol_t, (∀ x ∈ syms, isRestartFromRetry x = false) →
    (syms.foldl RIOSTACK_portAddSymbol s2).rxState = RX_STATE_INPUT_RETRY_STOPPED ∧
    (syms.foldl RIOSTACK_portAddSymbol s2).rxQueue = s2.rxQueue

/-- A restart-from-retry control symbol returns the receiver to
`LINK_INITIALIZED` (spec section 4.C). -/
def retryStoppedResumeEffect (s2 : RioStack_t) : Prop :=
  ∀ x : RioSymbol_t, isRestartFromRetry x = true →
    (RIOSTACK_portAddSymbol s2 x).rxState = RX_STATE_LINK_INITIALIZED

/-- A concrete, CRC-valid status control symbol advertising one free buffer. -/
def statusControlSymbol : RioSymbol_t :=
  { type := RIOSTACK_SYMBOL_TYPE_CONTROL, data := encodeControl 4 0 1 7 0 }

/-- Feed `n` copies of `statusControlSymbol` into a stack. -/
def addStatusN : RioStack_t → Nat → RioStack_t
  | s, 0 => s
  | s, n + 1 => addStatusN (RIOSTACK_portAddSymbol s statusControlSymbol) n

/-- Pump `n` calls of `RIOSTACK_portGetSymbol`, keeping only the state. -/
def pumpTx : RioStack_t → Nat → RioStack_t
  | s, 0 => s
  | s, n + 1 => pumpTx (RIOSTACK_portGetSymbol s).1 n

/-- A freshly opened one-slot-per-direction stack just past `portSetStatus 1`
and the seven status symbols of the receiver handshake: a concrete reachable
state with `rxState = RX_STATE_LINK_INITIALIZED`. -/
def c7LinkStack : RioStack_t :=
  addStatusN (RIOSTACK_portSetStatus (RIOSTACK_open 70 70) 1) 7

/-- A concrete stack state used to witness the claims that quantify over an
arbitrary state: the transmitter is link-initialized with one packet in
flight, the receiver is link-initialized with a full (single-slot) inbound
queue. -/
def witnessStack : RioStack_t :=
  { rxState := RX_STATE_LINK_INITIALIZED, rxCounter := 0, rxCrc := 65535,
    rxStatusReceived := 7, rxAckId := 5, rxAckIdAcked := 5,
    rxErrorCause := PACKET_NOT_ACCEPTED_CAUSE_RESERVED,
    rxQueue := { size := 1, available := 0, windowSize := 0, windowIndex := 0,
                 frontIndex := 0, backIndex := 0, buffer := [[1, 2, 3]] },
    txState := TX_STATE_LINK_INITIALIZED, txCounter := 0, txStatusCounter := 15,
    txFrameState := TX_FRAME_START, txFrameTimeout := List.replicate 32 0,
    txAckId := 3, txAckIdWindow := 4, txBufferStatus := 1,
    txQueue := { size := 2, available := 1, windowSize := 1, windowIndex := 1,
                 frontIndex := 0, backIndex := 1, buffer := [[9, 9, 9], []] },
    portTime := 50, portTimeout := 100,
    statusInboundPacketComplete := 0, statusInboundPacketRetry := 0,
    statusInboundErrorControlCrc := 0, statusInboundErrorPacketAckId := 0,
    statusInboundErrorPacketCrc := 0, statusInboundErrorIllegalCharacter := 0,
    statusInboundErrorGeneral := 0, statusInboundErrorPacketUnsupported := 0,
    statusOutboundPacketComplete := 0, statusOutboundLinkLatencyMax := 0,
    statusOutboundPacketRetry := 0, statusOutboundErrorTimeout := 0,
    statusOutboundErrorPacketAccepted := 0, statusOutboundErrorPacketRetry := 0,
    statusPartnerLinkRequest := 0, statusPartnerErrorControlCrc := 0,
    statusPartnerErrorPacketAckId := 0, statusPartnerErrorPacketCrc := 0,
    statusPartnerErrorIllegalCharacter := 0, statusPartnerErrorGeneral := 0 }

/-- The timeout invariant exactly as claimed: after every API call (on every
reachable state), every in-flight ackId is within the timeout budget or the
transmitter is output-error-stopped.  (`u32sub` is never negative, so the
claimed lower bound `0 ≤ portTime − txFrameTimeout[ackId]` is the `uint32`
truth.) -/
def timeoutInvariantClaimed : Prop :=
  ∀ s : RioStack_t, Reachable s →
    (∀ id ∈ inFlightIds s,
      u32sub s.portTime (s.txFrameTimeout.getD id 0) < s.portTimeout) ∨
    s.txState = TX_STATE_OUTPUT_ERROR_STOPPED

/-- A concrete reachable state refuting `timeoutInvariantClaimed`: open,
set a timeout of 10, bring the link up (seven inbound status symbols, fifteen
emitted status symbols), enqueue and fully frame one packet, then let
`portSetTime` jump the clock to 100.  The framed packet with ackId 0 is now
92 ticks past its budget while the transmitter is still link-initialized,
because only `portGetSymbol` runs the timeout check. -/
def c4BadStack : RioStack_t :=
  RIOSTACK_portSetTime
    (pumpTx
      (RIOSTACK_setOutboundPacket
        (pumpTx
          (addStatusN
            (RIOSTACK_portSetStatus (RIOSTACK_portSetTimeout (RIOSTACK_open 70 70) 10) 1)
            7)
          15)
        [100, 200, 300])
      5)
    100

/-! ## Helper lemmas -/

theorem list_getD_set_self (l : List Nat) (i a d : Nat) (h : i < l.length) :
    (l.set i a).getD i d = a := by
  simp [List.getD_eq_getElem?_getD, List.getElem?_set, h]

theorem list_getD_set_ne (l : List Nat) (i j a d : Nat) (h : i ≠ j) :
    (l.set i a).getD j d = l.getD j d := by
  simp [List.getD_eq_getElem?_getD, List.getElem?_set, h]

theorem crc5_lt (db : Nat) : crc5 db < 32 := Nat.mod_lt _ (by norm_num)

theorem encodeControl_fields (s0 p0 p1 st1 cmd : Nat)
    (hs0 : s0 < 8) (hp0 : p0 < 32) (hp1 : p1 < 32) (hst1 : st1 < 8) (hcmd : cmd < 8) :
    encodeControl s0 p0 p1 st1 cmd % 16777216 = encodeControl s0 p0 p1 st1 cmd ∧
    crc5Check (encodeControl s0 p0 p1 st1 cmd) = true ∧
    getS0 (encodeControl s0 p0 p1 st1 cmd) = s0 ∧
    getP0 (encodeControl s0 p0 p1 st1 cmd) = p0 ∧
    getP1 (encodeControl s0 p0 p1 st1 cmd) = p1 ∧
    getSt1 (encodeControl s0 p0 p1 st1 cmd) = st1 ∧
    getCmd (encodeControl s0 p0 p1 st1 cmd) = cmd := by
  have hc : crc5 (packControl s0 p0 p1 st1 cmd) < 32 := crc5_lt _
  unfold encodeControl crc5Check getS0 getP0 getP1 getSt1 getCmd packControl
  unfold packControl at hc
  have hdiv : (((((s0 * 32 + p0) * 32 + p1) * 8 + st1) * 8 + cmd) * 32 +
      crc5 ((((s0 * 32 + p0) * 32 + p1) * 8 + st1) * 8 + cmd)) / 32 =
      (((s0 * 32 + p0) * 32 + p1) * 8 + st1) * 8 + cmd := by omega
  have hmod : (((((s0 * 32 + p0) * 32 + p1) * 8 + st1) * 8 + cmd) * 32 +
      crc5 ((((s0 * 32 + p0) * 32 + p1) * 8 + st1) * 8 + cmd)) % 32 =
      crc5 ((((s0 * 32 + p0) * 32 + p1) * 8 + st1) * 8 + cmd) := by omega
  refine ⟨by omega, ?_, by omega, by omega, by omega, by omega, by omega⟩
  rw [hdiv, hmod]
  simp

/-! ## Simple claims -/

/-- C2: `RIOSTACK_getLinkIsInitialized` returns a non-zero value if and only
if `txState = TX_STATE_LINK_INITIALIZED` and `rxState =
RX_STATE_LINK_INITIALIZED`, and returns zero otherwise. -/
theorem getLinkIsInitialized_iff (s : RioStack_t) :
    (RIOSTACK_getLinkIsInitialized s ≠ 0 ↔
      (s.txState = TX_STATE_LINK_INITIALIZED ∧ s.rxState = RX_STATE_LINK_INITIALIZED)) ∧
    (¬ (s.txState = TX_STATE_LINK_INITIALIZED ∧ s.rxState = RX_STATE_LINK_INITIALIZED) →
      RIOSTACK_getLinkIsInitialized s = 0) := by
  unfold RIOSTACK_getLinkIsInitialized
  split_ifs with h <;> simp [h]

/-- C10: the deprecated `RIOSTACK_getStatus` returns the same value as
`RIOSTACK_getLinkIsInitialized` on every stack state. -/
theorem getStatus_eq_getLinkIsInitialized (s : RioStack_t) :
    RIOSTACK_getStatus s = RIOSTACK_getLinkIsInitialized s := rfl

/-- C6: `RIOSTACK_portSetStatus` with argument zero sets both state machines
to `UNINITIALIZED`, zeroes the status-symbol counters, preserves the packets
stored in the outbound queue (same contents and count) and rewinds the
transmission window (`windowIndex := frontIndex`, `windowSize := 0`). -/
theorem portSetStatus_zero_resets (s : RioStack_t) :
    (RIOSTACK_portSetStatus s 0).rxState = RX_STATE_UNINITIALIZED ∧
    (RIOSTACK_portSetStatus s 0).txState = TX_STATE_UNINITIALIZED ∧
    (RIOSTACK_portSetStatus s 0).rxStatusReceived = 0 ∧
    (RIOSTACK_portSetStatus s 0).txStatusCounter = 0 ∧
    (RIOSTACK_portSetStatus s 0).txQueue.buffer = s.txQueue.buffer ∧
    (RIOSTACK_portSetStatus s 0).txQueue.size = s.txQueue.size ∧
    (RIOSTACK_portSetStatus s 0).txQueue.available = s.txQueue.available ∧
    (RIOSTACK_portSetStatus s 0).txQueue.frontIndex = s.txQueue.frontIndex ∧
    (RIOSTACK_portSetStatus s 0).txQueue.backIndex = s.txQueue.backIndex ∧
    (RIOSTACK_portSetStatus s 0).txQueue.windowIndex = s.txQueue.frontIndex ∧
    (RIOSTACK_portSetStatus s 0).txQueue.windowSize = 0 := by
  unfold RIOSTACK_portSetStatus QUEUE_rewindWindow
  norm_num

/-- C9: `RIOSTACK_portGetSymbol` always returns a symbol, and the returned
symbol is never of type `RIOSTACK_SYMBOL_TYPE_ERROR`: error symbols are
consumed by the stack but never produced by it. -/
theorem portGetSymbol_never_error (s : RioStack_t) :
    (RIOSTACK_portGetSymbol s).2.type ≠ RIOSTACK_SYMBOL_TYPE_ERROR := by
  unfold RIOSTACK_portGetSymbol txEmit
  split <;> dsimp only <;> (try split_ifs) <;>
    simp [idleSymbol, statusSymbol, packetRetrySymbol, packetNotAcceptedSymbol,
      linkResponseSymbol, restartFromRetrySymbol, linkRequestSymbol,
      packetAcceptedSymbol, sopSymbol, eopSymbol]

theorem portAddSymbol_control_eq (s : RioStack_t) (s0 p0 p1 st1 cmd : Nat)
    (hs0 : s0 < 8) (hp0 : p0 < 32) (hp1 : p1 < 32) (hst1 : st1 < 8) (hcmd : cmd < 8) :
    RIOSTACK_portAddSymbol s
        { type := RIOSTACK_SYMBOL_TYPE_CONTROL, data := encodeControl s0 p0 p1 st1 cmd } =
      handleStype1 (handleStype0 s s0 p0 p1) st1 cmd := by
  obtain ⟨hm, hcrc, h0, h1, h2, h3, h4⟩ :=
    encodeControl_fields s0 p0 p1 st1 cmd hs0 hp0 hp1 hst1 hcmd
  unfold RIOSTACK_portAddSymbol handleSymbolControl
  simp only [hm, hcrc, h0, h1, h2, h3, h4, if_true]

theorem handleStype1_nop (t : RioStack_t) (cmd : Nat) : handleStype1 t 7 cmd = t := by
  unfold handleStype1
  cases t.rxState <;> norm_num

theorem handleStype0_rxQueue (t : RioStack_t) (s0 p0 p1 : Nat) :
    (handleStype0 t s0 p0 p1).rxQueue = t.rxQueue := by
  unfold handleStype0
  dsimp only
  split_ifs <;> rfl

theorem handleStype0_rxAckId (t : RioStack_t) (s0 p0 p1 : Nat) :
    (handleStype0 t s0 p0 p1).rxAckId = t.rxAckId := by
  unfold handleStype0
  dsimp only
  split_ifs <;> rfl

theorem handleStype0_rxState (t : RioStack_t) (s0 p0 p1 : Nat)
    (h : t.rxState ≠ RX_STATE_PORT_INITIALIZED) :
    (handleStype0 t s0 p0 p1).rxState = t.rxState := by
  unfold handleStype0
  dsimp only
  split_ifs <;> rfl

/-- C3: in `TX_STATE_LINK_INITIALIZED` with a non-empty window, consuming a
packet-accepted control symbol carrying ackId `a`: if `a = txAckId` the front
packet is released, the window shrinks by one, `txAckId` becomes
`(txAckId+1) mod 32`, `statusOutboundLinkLatencyMax` absorbs
`portTime − txFrameTimeout[a]` if larger, and `statusOutboundPacketComplete`
steps; if `a ≠ txAckId` then `statusOutboundErrorPacketAccepted` steps and
the transmitter goes to `TX_STATE_OUTPUT_ERROR_STOPPED`. -/
theorem packet_accepted_handling (s : RioStack_t) (a p1 cmd : Nat)
    (ha : a < 32) (hp1 : p1 < 32) (hcmd : cmd < 8)
    (htx : s.txState = TX_STATE_LINK_INITIALIZED)
    (hw : s.txQueue.windowSize ≠ 0) :
    (a = s.txAckId →
      packetAcceptedMatchEffect s
        (RIOSTACK_portAddSymbol s
          { type := RIOSTACK_SYMBOL_TYPE_CONTROL, data := encodeControl 0 a p1 7 cmd }) a) ∧
    (a ≠ s.txAckId →
      packetAcceptedMismatchEffect s
        (RIOSTACK_portAddSymbol s
          { type := RIOSTACK_SYMBOL_TYPE_CONTROL, data := encodeControl 0 a p1 7 cmd })) := by
  rw [portAddSymbol_control_eq s 0 a p1 7 cmd (by norm_num) ha hp1 (by norm_num) hcmd,
    handleStype1_nop]
  constructor
  · intro hEq
    unfold handleStype0
    rw [if_neg (by norm_num), if_pos rfl, if_pos htx, if_pos ⟨hEq, hw⟩]
    unfold packetAcceptedMatchEffect
    subst hEq
    exact ⟨rfl, rfl, rfl, rfl, rfl, rfl, rfl⟩
  · intro hNe
    unfold handleStype0
    rw [if_neg (by norm_num), if_pos rfl, if_pos htx,
      if_neg (by intro hc; exact hNe hc.1)]
    exact ⟨rfl, rfl⟩

/-- Witness for C3: the packet-accepted theorem applied to `witnessStack`
and the matching ackId 3, with every hypothesis discharged concretely. -/
theorem packet_accepted_handling_witness :
    ((3 : Nat) < 32 ∧ (1 : Nat) < 32 ∧ (0 : Nat) < 8 ∧
      witnessStack.txState = TX_STATE_LINK_INITIALIZED ∧
      witnessStack.txQueue.windowSize ≠ 0) ∧
    ((3 = witnessStack.txAckId →
      packetAcceptedMatchEffect witnessStack
        (RIOSTACK_portAddSymbol witnessStack
          { type := RIOSTACK_SYMBOL_TYPE_CONTROL, data := encodeControl 0 3 1 7 0 }) 3) ∧
    (3 ≠ witnessStack.txAckId →
      packetAcceptedMismatchEffect witnessStack
        (RIOSTACK_portAddSymbol witnessStack
          { type := RIOSTACK_SYMBOL_TYPE_CONTROL, data := encodeControl 0 3 1 7 0 }))) :=
  ⟨⟨by norm_num, by norm_num, by norm_num, by rfl, by decide⟩,
    packet_accepted_handling witnessStack 3 1 0 (by norm_num) (by norm_num) (by norm_num)
      (by rfl) (by decide)⟩

theorem retry_stopped_drop (t : RioStack_t) (h : t.rxState = RX_STATE_INPUT_RETRY_STOPPED)
    (x : RioSymbol_t) (hx : isRestartFromRetry x = false) :
    (RIOSTACK_portAddSymbol t x).rxState = RX_STATE_INPUT_RETRY_STOPPED ∧
    (RIOSTACK_portAddSymbol t x).rxQueue = t.rxQueue := by
  unfold RIOSTACK_portAddSymbol
  unfold isRestartFromRetry at hx
  cases hty : x.type
  · exact ⟨h, rfl⟩
  · simp only
    unfold handleSymbolControl
    dsimp only
    cases hcrc : crc5Check (x.data % 16777216)
    · simp only [Bool.false_eq_true, if_false]
      split_ifs with hL
      · rw [h] at hL; cases hL
      · exact ⟨h, rfl⟩
    · simp only [if_true]
      rw [hty, hcrc] at hx
      simp only [Bool.true_and] at hx
      have hst1 : getSt1 (x.data % 16777216) ≠ 3 := by
        intro hc
        rw [hc] at hx
        simp at hx
      have h0s : (handleStype0 t (getS0 (x.data % 16777216)) (getP0 (x.data % 16777216))
          (getP1 (x.data % 16777216))).rxState = t.rxState :=
        handleStype0_rxState t _ _ _ (by rw [h]; intro hc; cases hc)
      have h0q : (handleStype0 t (getS0 (x.data % 16777216)) (getP0 (x.data % 16777216))
          (getP1 (x.data % 16777216))).rxQueue = t.rxQueue := handleStype0_rxQueue t _ _ _
      unfold handleStype1
      rw [h] at h0s
      simp only [h0s]
      rw [if_neg hst1]
      exact ⟨h0s, h0q⟩
  · simp only
    unfold handleSymbolData
    rw [if_neg (by rw [h]; intro hc; cases hc)]
    exact ⟨h, rfl⟩
  · simp only
    unfold handleSymbolError
    rw [if_neg (by rw [h]; intro hc; cases hc)]
    exact ⟨h, rfl⟩

theorem retry_stopped_drop_list (t : RioStack_t)
    (h : t.rxState = RX_STATE_INPUT_RETRY_STOPPED) (syms : List RioSymbol_t)
    (hsyms : ∀ x ∈ syms, isRestartFromRetry x = false) :
    (syms.foldl RIOSTACK_portAddSymbol t).rxState = RX_STATE_INPUT_RETRY_STOPPED ∧
    (syms.foldl RIOSTACK_portAddSymbol t).rxQueue = t.rxQueue := by
  induction syms generalizing t with
  | nil => exact ⟨h, rfl⟩
  | cons x xs ih =>
    obtain ⟨h1, h2⟩ := retry_stopped_drop t h x (hsyms x (by simp))
    obtain ⟨h3, h4⟩ := ih (RIOSTACK_portAddSymbol t x) h1 (fun y hy => hsyms y (by simp [hy]))
    simp only [List.foldl_cons]
    exact ⟨h3, by rw [h4, h2]⟩

theorem retry_stopped_resume (t : RioStack_t)
    (h : t.rxState = RX_STATE_INPUT_RETRY_STOPPED) (x : RioSymbol_t)
    (hx : isRestartFromRetry x = true) :
    (RIOSTACK_portAddSymbol t x).rxState = RX_STATE_LINK_INITIALIZED := by
  unfold isRestartFromRetry at hx
  cases hty : x.type <;> rw [hty] at hx <;> try cases hx
  rw [Bool.and_eq_true, beq_iff_eq] at hx
  obtain ⟨hcrc, hst1⟩ := hx
  unfold RIOSTACK_portAddSymbol
  rw [hty]
  unfold handleSymbolControl
  dsimp only
  rw [if_pos hcrc]
  have h0s : (handleStype0 t (getS0 (x.data % 16777216)) (getP0 (x.data % 16777216))
      (getP1 (x.data % 16777216))).rxState = t.rxState :=
    handleStype0_rxState t _ _ _ (by rw [h]; intro hc; cases hc)
  unfold handleStype1
  rw [h] at h0s
  simp only [h0s, hst1]
  rfl

theorem txExpired_of_aligned (t : RioStack_t) (h : t.txAckIdWindow % 32 = t.txAckId % 32) :
    txExpired t = false := by
  unfold txExpired inFlightIds ackIdDistance
  rw [h]
  have : (t.txAckId % 32 + 32 - t.txAckId % 32) % 32 = 0 := by omega
  rw [this]
  rfl

theorem portGetSymbol_send_retry (t : RioStack_t)
    (h : t.txState = TX_STATE_SEND_PACKET_RETRY) (hnf : txExpired t = false) :
    (RIOSTACK_portGetSymbol t).2 = packetRetrySymbol t := by
  unfold RIOSTACK_portGetSymbol timeoutScan
  rw [hnf]
  simp only [Bool.false_eq_true, if_false]
  unfold txEmit
  simp only [h]

/-- C5: in `RX_STATE_LINK_INITIALIZED`, a start-of-packet control symbol
arriving while the inbound queue has no available slot moves the receiver to
`RX_STATE_INPUT_RETRY_STOPPED` and demands a packet-retry control symbol from
the transmitter (`txState` becomes `TX_STATE_SEND_PACKET_RETRY`, targeted at
the refused ackId `rxAckId`); subsequent symbols are dropped without effect
on the inbound queue until a restart-from-retry control symbol is received,
upon which the receiver returns to `RX_STATE_LINK_INITIALIZED`. -/
theorem no_resource_retry_stopped (s : RioStack_t) (s0 p0 p1 cmd : Nat)
    (hs0 : s0 < 8) (hp0 : p0 < 32) (hp1 : p1 < 32) (hcmd : cmd < 8)
    (hrx : s.rxState = RX_STATE_LINK_INITIALIZED)
    (hq : s.rxQueue.available = 0) :
    noResourceDemandEffect s
      (RIOSTACK_portAddSymbol s
        { type := RIOSTACK_SYMBOL_TYPE_CONTROL, data := encodeControl s0 p0 p1 0 cmd }) ∧
    retryStoppedDropEffect
      (RIOSTACK_portAddSymbol s
        { type := RIOSTACK_SYMBOL_TYPE_CONTROL, data := encodeControl s0 p0 p1 0 cmd }) ∧
    retryStoppedResumeEffect
      (RIOSTACK_portAddSymbol s
        { type := RIOSTACK_SYMBOL_TYPE_CONTROL, data := encodeControl s0 p0 p1 0 cmd }) := by
  rw [portAddSymbol_control_eq s s0 p0 p1 0 cmd hs0 hp0 hp1 (by norm_num) hcmd]
  have hts : (handleStype0 s s0 p0 p1).rxState = RX_STATE_LINK_INITIALIZED := by
    rw [handleStype0_rxState s s0 p0 p1 (by rw [hrx]; intro hc; cases hc), hrx]
  have htq : (handleStype0 s s0 p0 p1).rxQueue = s.rxQueue := handleStype0_rxQueue s s0 p0 p1
  have hta : (handleStype0 s s0 p0 p1).rxAckId = s.rxAckId := handleStype0_rxAckId s s0 p0 p1
  have hred : handleStype1 (handleStype0 s s0 p0 p1) 0 cmd =
      { handleStype0 s s0 p0 p1 with
        rxState := RX_STATE_INPUT_RETRY_STOPPED,
        rxErrorCause := PACKET_NOT_ACCEPTED_CAUSE_NO_RESOURCE,
        txState := TX_STATE_SEND_PACKET_RETRY, rxCounter := 0,
        statusInboundPacketRetry :=
          ((handleStype0 s s0 p0 p1).statusInboundPacketRetry + 1) % 4294967296 } := by
    unfold handleStype1
    simp only [hts, if_true]
    rw [if_pos (show (handleStype0 s s0 p0 p1).rxQueue.available = 0 by rw [htq]; exact hq)]
  rw [hred]
  refine ⟨⟨rfl, rfl, hta, htq, ?_⟩, ?_, ?_⟩
  · intro hw
    rw [portGetSymbol_send_retry _ rfl (txExpired_of_aligned _ hw)]
  · intro syms hsyms
    exact retry_stopped_drop_list _ rfl syms hsyms
  · intro x hx
    exact retry_stopped_resume _ rfl x hx

/-- Witness for C5: the no-resource theorem applied to `witnessStack` (whose
single inbound slot is occupied) and a concrete start-of-packet symbol. -/
theorem no_resource_retry_stopped_witness :
    ((4 : Nat) < 8 ∧ (5 : Nat) < 32 ∧ (0 : Nat) < 32 ∧ (0 : Nat) < 8 ∧
      witnessStack.rxState = RX_STATE_LINK_INITIALIZED ∧
      witnessStack.rxQueue.available = 0) ∧
    (noResourceDemandEffect witnessStack
      (RIOSTACK_portAddSymbol witnessStack
        { type := RIOSTACK_SYMBOL_TYPE_CONTROL, data := encodeControl 4 5 0 0 0 }) ∧
    retryStoppedDropEffect
      (RIOSTACK_portAddSymbol witnessStack
        { type := RIOSTACK_SYMBOL_TYPE_CONTROL, data := encodeControl 4 5 0 0 0 }) ∧
    retryStoppedResumeEffect
      (RIOSTACK_portAddSymbol witnessStack
        { type := RIOSTACK_SYMBOL_TYPE_CONTROL, data := encodeControl 4 5 0 0 0 })) :=
  ⟨⟨by norm_num, by norm_num, by norm_num, by norm_num, by rfl, by rfl⟩,
    no_resource_retry_stopped witnessStack 4 5 0 0 (by norm_num) (by norm_num)
      (by norm_num) (by norm_num) (by rfl) (by rfl)⟩

theorem stackInv_handleStype0 (s : RioStack_t) (s0 p0 p1 : Nat) (h : StackInv s) :
    StackInv (handleStype0 s s0 p0 p1) := by
  obtain ⟨⟨hr1, hr2⟩, ⟨ht1, ht2⟩, hrw, hport, hlink, hframe⟩ := h
  unfold handleStype0
  dsimp only
  split_ifs <;>
    refine ⟨⟨?_, ?_⟩, ⟨?_, ?_⟩, ?_, ?_, ?_, ?_⟩ <;>
    simp_all [StackInv, QueueInv, QUEUE_usedCount, QUEUE_rewindWindow,
      TX_FRAME_START, TX_FRAME_DATA, N_STATUS_RX] <;>
    omega

theorem stackInv_handleStype1 (s : RioStack_t) (st1 cmd : Nat) (h : StackInv s) :
    StackInv (handleStype1 s st1 cmd) := by
  obtain ⟨⟨hr1, hr2⟩, ⟨ht1, ht2⟩, hrw, hport, hlink, hframe⟩ := h
  unfold handleStype1 rxErrorStop
  cases hrx : s.rxState <;> dsimp only <;> (try split_ifs) <;>
    refine ⟨⟨?_, ?_⟩, ⟨?_, ?_⟩, ?_, ?_, ?_, ?_⟩ <;>
    simp_all [StackInv, QueueInv, QUEUE_usedCount, QUEUE_rewindWindow,
      TX_FRAME_START, TX_FRAME_DATA, N_STATUS_RX] <;>
    omega

theorem stackInv_handleSymbolError (s : RioStack_t) (h : StackInv s) :
    StackInv (handleSymbolError s) := by
  obtain ⟨⟨hr1, hr2⟩, ⟨ht1, ht2⟩, hrw, hport, hlink, hframe⟩ := h
  unfold handleSymbolError rxErrorStop
  split_ifs <;>
    refine ⟨⟨?_, ?_⟩, ⟨?_, ?_⟩, ?_, ?_, ?_, ?_⟩ <;>
    simp_all [StackInv, QueueInv, QUEUE_usedCount, TX_FRAME_START, TX_FRAME_DATA, N_STATUS_RX] <;>
    omega

theorem stackInv_handleSymbolData (s : RioStack_t) (w : Nat) (h : StackInv s) :
    StackInv (handleSymbolData s w) := by
  obtain ⟨⟨hr1, hr2⟩, ⟨ht1, ht2⟩, hrw, hport, hlink, hframe⟩ := h
  unfold handleSymbolData rxErrorStop
  dsimp only
  split_ifs <;>
    refine ⟨⟨?_, ?_⟩, ⟨?_, ?_⟩, ?_, ?_, ?_, ?_⟩ <;>
    simp_all [StackInv, QueueInv, QUEUE_usedCount, TX_FRAME_START, TX_FRAME_DATA, N_STATUS_RX] <;>
    omega

theorem stackInv_handleSymbolControl (s : RioStack_t) (d : Nat) (h : StackInv s) :
    StackInv (handleSymbolControl s d) := by
  unfold handleSymbolControl rxErrorStop
  dsimp only
  split_ifs with h1 h2
  · exact stackInv_handleStype1 _ _ _ (stackInv_handleStype0 s _ _ _ h)
  · obtain ⟨⟨hr1, hr2⟩, ⟨ht1, ht2⟩, hrw, hport, hlink, hframe⟩ := h
    refine ⟨⟨?_, ?_⟩, ⟨?_, ?_⟩, ?_, ?_, ?_, ?_⟩ <;>
      simp_all [StackInv, QueueInv, QUEUE_usedCount, TX_FRAME_START, TX_FRAME_DATA,
        N_STATUS_RX] <;>
      omega
  · obtain ⟨⟨hr1, hr2⟩, ⟨ht1, ht2⟩, hrw, hport, hlink, hframe⟩ := h
    refine ⟨⟨?_, ?_⟩, ⟨?_, ?_⟩, ?_, ?_, ?_, ?_⟩ <;>
      simp_all [StackInv, QueueInv, QUEUE_usedCount, TX_FRAME_START, TX_FRAME_DATA,
        N_STATUS_RX] <;>
      omega

theorem stackInv_portAddSymbol (s : RioStack_t) (sym : RioSymbol_t) (h : StackInv s) :
    StackInv (RIOSTACK_portAddSymbol s sym) := by
  unfold RIOSTACK_portAddSymbol
  cases sym.type
  · exact h
  · exact stackInv_handleSymbolControl s _ h
  · exact stackInv_handleSymbolData s _ h
  · exact stackInv_handleSymbolError s h

theorem stackInv_timeoutScan (s : RioStack_t) (h : StackInv s) : StackInv (timeoutScan s) := by
  obtain ⟨⟨hr1, hr2⟩, ⟨ht1, ht2⟩, hrw, hport, hlink, hframe⟩ := h
  unfold timeoutScan
  split_ifs <;> exact ⟨⟨hr1, hr2⟩, ⟨ht1, ht2⟩, hrw, hport, hlink, hframe⟩

theorem stackInv_txEmit (s : RioStack_t) (h : StackInv s) : StackInv (txEmit s).1 := by
  obtain ⟨⟨hr1, hr2⟩, ⟨ht1, ht2⟩, hrw, hport, hlink, hframe⟩ := h
  unfold txEmit
  cases htx : s.txState <;> dsimp only <;> (try split_ifs) <;>
    refine ⟨⟨?_, ?_⟩, ⟨?_, ?_⟩, ?_, ?_, ?_, ?_⟩ <;>
    simp_all [StackInv, QueueInv, QUEUE_usedCount, QUEUE_windowOpen, QUEUE_advanceWindow,
      TX_FRAME_START, TX_FRAME_DATA, N_STATUS_RX] <;>
    (try split_ifs) <;>
    (try simp_all) <;>
    omega

theorem stackInv_portGetSymbol (s : RioStack_t) (h : StackInv s) :
    StackInv (RIOSTACK_portGetSymbol s).1 :=
  stackInv_txEmit _ (stackInv_timeoutScan s h)

theorem stackInv_portSetTime (s : RioStack_t) (t : Nat) (h : StackInv s) :
    StackInv (RIOSTACK_portSetTime s t) := h

theorem stackInv_portSetTimeout (s : RioStack_t) (t : Nat) (h : StackInv s) :
    StackInv (RIOSTACK_portSetTimeout s t) := h

theorem stackInv_portSetStatus (s : RioStack_t) (b : Nat) (h : StackInv s) :
    StackInv (RIOSTACK_portSetStatus s b) := by
  obtain ⟨⟨hr1, hr2⟩, ⟨ht1, ht2⟩, hrw, hport, hlink, hframe⟩ := h
  unfold RIOSTACK_portSetStatus
  split_ifs <;>
    refine ⟨⟨?_, ?_⟩, ⟨?_, ?_⟩, ?_, ?_, ?_, ?_⟩ <;>
    simp_all [StackInv, QueueInv, QUEUE_usedCount, QUEUE_rewindWindow,
      TX_FRAME_START, TX_FRAME_DATA, N_STATUS_RX] <;>
    omega

theorem stackInv_setOutboundPacket (s : RioStack_t) (p : List Nat) (h : StackInv s) :
    StackInv (RIOSTACK_setOutboundPacket s p) := by
  obtain ⟨⟨hr1, hr2⟩, ⟨ht1, ht2⟩, hrw, hport, hlink, hframe⟩ := h
  unfold RIOSTACK_setOutboundPacket QUEUE_enqueueBack
  split_ifs <;>
    refine ⟨⟨?_, ?_⟩, ⟨?_, ?_⟩, ?_, ?_, ?_, ?_⟩ <;>
    simp_all [StackInv, QueueInv, QUEUE_usedCount, TX_FRAME_START, TX_FRAME_DATA,
      N_STATUS_RX] <;>
    omega

theorem stackInv_getInboundPacket (s : RioStack_t) (h : StackInv s) :
    StackInv (RIOSTACK_getInboundPacket s).1 := by
  obtain ⟨⟨hr1, hr2⟩, ⟨ht1, ht2⟩, hrw, hport, hlink, hframe⟩ := h
  unfold RIOSTACK_getInboundPacket
  split_ifs <;>
    refine ⟨⟨?_, ?_⟩, ⟨?_, ?_⟩, ?_, ?_, ?_, ?_⟩ <;>
    simp_all [StackInv, QueueInv, QUEUE_usedCount, TX_FRAME_START, TX_FRAME_DATA,
      N_STATUS_RX] <;>
    omega

theorem stackInv_open (rxSize txSize : Nat) : StackInv (RIOSTACK_open rxSize txSize) := by
  unfold RIOSTACK_open newQueue StackInv QueueInv QUEUE_usedCount
  refine ⟨⟨?_, ?_⟩, ⟨?_, ?_⟩, ?_, ?_, ?_, ?_⟩ <;>
    simp [TX_FRAME_START, TX_FRAME_DATA, N_STATUS_RX]

theorem reachable_stackInv {s : RioStack_t} (h : Reachable s) : StackInv s := by
  induction h with
  | opened rxSize txSize => exact stackInv_open rxSize txSize
  | addSymbol sym _ ih => exact stackInv_portAddSymbol _ sym ih
  | getSymbol _ ih => exact stackInv_portGetSymbol _ ih
  | setTime t _ ih => exact stackInv_portSetTime _ t ih
  | setTimeout t _ ih => exact stackInv_portSetTimeout _ t ih
  | setStatus b _ ih => exact stackInv_portSetStatus _ b ih
  | setOutbound p _ ih => exact stackInv_setOutboundPacket _ p ih
  | getInbound _ ih => exact stackInv_getInboundPacket _ ih

theorem handleStype1_of_port (t : RioStack_t) (st1 cmd : Nat)
    (h : t.rxState = RX_STATE_PORT_INITIALIZED) : handleStype1 t st1 cmd = t := by
  unfold handleStype1
  simp only [h]

theorem handleStype1_statusReceived (t : RioStack_t) (st1 cmd : Nat) :
    (handleStype1 t st1 cmd).rxStatusReceived = t.rxStatusReceived := by
  unfold handleStype1 rxErrorStop
  cases t.rxState <;> dsimp only <;> (try split_ifs) <;> rfl

theorem handleStype0_from_port (s : RioStack_t) (s0 p0 p1 : Nat)
    (h : s.rxState = RX_STATE_PORT_INITIALIZED) :
    (handleStype0 s s0 p0 p1).rxState = RX_STATE_PORT_INITIALIZED ∨
    ((handleStype0 s s0 p0 p1).rxState = RX_STATE_LINK_INITIALIZED ∧
      N_STATUS_RX ≤ (handleStype0 s s0 p0 p1).rxStatusReceived) := by
  unfold handleStype0
  dsimp only
  split_ifs <;> first | (left; exact h) | (left; rfl) | (right; exact ⟨rfl, by assumption⟩)

/-- C7: the receiver moves from `RX_STATE_PORT_INITIALIZED` to
`RX_STATE_LINK_INITIALIZED` only once at least `N_STATUS_RX` (= 7) valid
status control symbols have been counted in `rxStatusReceived`; consequently,
on every reachable state, `rxState` being `LINK_INITIALIZED`,
`INPUT_RETRY_STOPPED` or `INPUT_ERROR_STOPPED` implies
`rxStatusReceived ≥ N_STATUS_RX`. -/
theorem rx_status_threshold :
    (∀ (s : RioStack_t) (sym : RioSymbol_t),
      s.rxState = RX_STATE_PORT_INITIALIZED →
      (RIOSTACK_portAddSymbol s sym).rxState = RX_STATE_LINK_INITIALIZED →
      N_STATUS_RX ≤ (RIOSTACK_portAddSymbol s sym).rxStatusReceived) ∧
    (∀ s : RioStack_t, Reachable s →
      (s.rxState = RX_STATE_LINK_INITIALIZED ∨ s.rxState = RX_STATE_INPUT_RETRY_STOPPED ∨
        s.rxState = RX_STATE_INPUT_ERROR_STOPPED) →
      N_STATUS_RX ≤ s.rxStatusReceived) := by
  constructor
  · intro s sym hP hL
    unfold RIOSTACK_portAddSymbol at hL ⊢
    cases hty : sym.type <;> rw [hty] at hL <;> dsimp only at hL ⊢
    · rw [hP] at hL; simp at hL
    · unfold handleSymbolControl at hL ⊢
      dsimp only at hL ⊢
      by_cases hcrc : crc5Check (sym.data % 16777216)
      · rw [if_pos hcrc] at hL ⊢
        rcases handleStype0_from_port s _ _ _ hP with hp | ⟨_, hcount⟩
        · rw [handleStype1_of_port _ _ _ hp, hp] at hL; simp at hL
        · rw [handleStype1_statusReceived]
          exact hcount
      · rw [if_neg hcrc] at hL
        split_ifs at hL with hLi
        · simp [hP] at hLi
        · simp [hP] at hL
    · unfold handleSymbolData at hL
      rw [if_neg (by rw [hP]; intro hc; cases hc)] at hL
      rw [hP] at hL; simp at hL
    · unfold handleSymbolError at hL
      rw [if_neg (by rw [hP]; intro hc; cases hc)] at hL
      rw [hP] at hL; simp at hL
  · intro s hreach hstate
    exact (reachable_stackInv hreach).2.2.2.2.1 hstate

theorem reachable_addStatusN {s : RioStack_t} (h : Reachable s) (n : Nat) :
    Reachable (addStatusN s n) := by
  induction n generalizing s with
  | zero => exact h
  | succ k ih => exact ih (Reachable.addSymbol statusControlSymbol h)

theorem reachable_pumpTx {s : RioStack_t} (h : Reachable s) (n : Nat) :
    Reachable (pumpTx s n) := by
  induction n generalizing s with
  | zero => exact h
  | succ k ih => exact ih (Reachable.getSymbol h)

/-- Witness for C7: the transition half at a concrete port-initialized state
with six status symbols already counted, and the invariant half at the
concrete reachable state `c7LinkStack`. -/
theorem rx_status_threshold_witness :
    (let s6 := addStatusN (RIOSTACK_portSetStatus (RIOSTACK_open 70 70) 1) 6
     s6.rxState = RX_STATE_PORT_INITIALIZED ∧
     (RIOSTACK_portAddSymbol s6 statusControlSymbol).rxState = RX_STATE_LINK_INITIALIZED ∧
     N_STATUS_RX ≤ (RIOSTACK_portAddSymbol s6 statusControlSymbol).rxStatusReceived) ∧
    (Reachable c7LinkStack ∧
     (c7LinkStack.rxState = RX_STATE_LINK_INITIALIZED ∨
       c7LinkStack.rxState = RX_STATE_INPUT_RETRY_STOPPED ∨
       c7LinkStack.rxState = RX_STATE_INPUT_ERROR_STOPPED) ∧
     N_STATUS_RX ≤ c7LinkStack.rxStatusReceived) :=
  ⟨⟨by decide, by decide,
    rx_status_threshold.1 (addStatusN (RIOSTACK_portSetStatus (RIOSTACK_open 70 70) 1) 6)
      statusControlSymbol (by decide) (by decide)⟩,
   ⟨reachable_addStatusN (Reachable.setStatus 1 (Reachable.opened 70 70)) 7,
    Or.inl (by decide),
    rx_status_threshold.2 c7LinkStack
      (reachable_addStatusN (Reachable.setStatus 1 (Reachable.opened 70 70)) 7)
      (Or.inl (by decide))⟩⟩

/-- C8: on every reachable state, both queues satisfy
`available + usedCount = size` and `windowSize ≤ usedCount`, and the inbound
(ingress) queue always has `windowSize = 0`. -/
theorem queue_accounting (s : RioStack_t) (h : Reachable s) :
    s.rxQueue.available + QUEUE_usedCount s.rxQueue = s.rxQueue.size ∧
    s.txQueue.available + QUEUE_usedCount s.txQueue = s.txQueue.size ∧
    s.txQueue.windowSize ≤ QUEUE_usedCount s.txQueue ∧
    s.rxQueue.windowSize ≤ QUEUE_usedCount s.rxQueue ∧
    s.rxQueue.windowSize = 0 := by
  obtain ⟨⟨hr1, hr2⟩, ⟨ht1, ht2⟩, hrw, _, _, _⟩ := reachable_stackInv h
  unfold QUEUE_usedCount at *
  omega

/-- Witness for C8: the queue-accounting theorem applied to the concrete
reachable state `c7LinkStack`. -/
theorem queue_accounting_witness :
    Reachable c7LinkStack ∧
    (c7LinkStack.rxQueue.available + QUEUE_usedCount c7LinkStack.rxQueue =
        c7LinkStack.rxQueue.size ∧
      c7LinkStack.txQueue.available + QUEUE_usedCount c7LinkStack.txQueue =
        c7LinkStack.txQueue.size ∧
      c7LinkStack.txQueue.windowSize ≤ QUEUE_usedCount c7LinkStack.txQueue ∧
      c7LinkStack.rxQueue.windowSize ≤ QUEUE_usedCount c7LinkStack.rxQueue ∧
      c7LinkStack.rxQueue.windowSize = 0) :=
  ⟨reachable_addStatusN (Reachable.setStatus 1 (Reachable.opened 70 70)) 7,
   queue_accounting c7LinkStack
     (reachable_addStatusN (Reachable.setStatus 1 (Reachable.opened 70 70)) 7)⟩

theorem u32sub_self (a : Nat) : u32sub a a = 0 := by
  unfold u32sub
  omega

theorem mem_inFlight_extend (a w id : Nat)
    (h : id ∈ (List.range (ackIdDistance a ((w + 1) % 32))).map (fun k => (a + k) % 32)) :
    id ∈ (List.range (ackIdDistance a w)).map (fun k => (a + k) % 32) ∨ id = w % 32 := by
  simp only [List.mem_map, List.mem_range] at h ⊢
  obtain ⟨k, hk, hid⟩ := h
  unfold ackIdDistance at hk ⊢
  by_cases hkd : k < (w % 32 + 32 - a % 32) % 32
  · exact Or.inl ⟨k, hkd, hid⟩
  · right
    omega

theorem mem_inFlight_ne (a w id : Nat)
    (h : id ∈ (List.range (ackIdDistance a w)).map (fun k => (a + k) % 32)) :
    id ≠ w % 32 := by
  simp only [List.mem_map, List.mem_range] at h
  obtain ⟨k, hk, hid⟩ := h
  unfold ackIdDistance at hk
  intro hc
  omega

theorem txEmit_keeps_fresh (s : RioStack_t) (hlen : s.txFrameTimeout.length = 32)
    (hpos : 0 < s.portTimeout)
    (hfresh : ∀ id ∈ inFlightIds s,
      u32sub s.portTime (s.txFrameTimeout.getD id 0) < s.portTimeout) :
    ∀ id ∈ inFlightIds (txEmit s).1,
      u32sub (txEmit s).1.portTime ((txEmit s).1.txFrameTimeout.getD id 0) <
        (txEmit s).1.portTimeout := by
  unfold txEmit
  cases htx : s.txState
  · exact hfresh
  · dsimp only
    split_ifs <;> exact hfresh
  · dsimp only
    split_ifs with h1 h2 h3 h4
    · exact hfresh
    · exact hfresh
    · intro id hid
      dsimp only at hid ⊢
      have hid2 : id ∈ (List.range (ackIdDistance s.txAckId ((s.txAckIdWindow + 1) % 32))).map
          (fun k => (s.txAckId + k) % 32) := by
        simpa [inFlightIds] using hid
      rcases mem_inFlight_extend s.txAckId s.txAckIdWindow id hid2 with hmem | heq
      · have hne : s.txAckIdWindow % 32 ≠ id :=
          fun hc => mem_inFlight_ne s.txAckId s.txAckIdWindow id hmem hc.symm
        rw [list_getD_set_ne _ _ _ _ _ hne]
        exact hfresh id (by simpa [inFlightIds] using hmem)
      · rw [heq, list_getD_set_self _ _ _ _ (by rw [hlen]; exact Nat.mod_lt _ (by norm_num)),
          u32sub_self]
        exact hpos
    · exact hfresh
    · exact hfresh
  · exact hfresh
  · exact hfresh
  · exact hfresh
  · exact hfresh
  · exact hfresh

/-- C4 (amended): every call to `RIOSTACK_portGetSymbol` performs the timeout
check — when some in-flight ackId has `portTime − txFrameTimeout[ackId] ≥
portTimeout` the transmitter transitions to `TX_STATE_OUTPUT_ERROR_STOPPED`
and `statusOutboundErrorTimeout` is incremented; consequently, immediately
after every `portGetSymbol` call on a stack with a positive `portTimeout`,
every in-flight ackId satisfies `portTime − txFrameTimeout[ackId] <
portTimeout` (as `uint32` arithmetic, hence never negative) or the
transmitter is in `TX_STATE_OUTPUT_ERROR_STOPPED`. -/
theorem timeout_check_portGetSymbol (s : RioStack_t)
    (hlen : s.txFrameTimeout.length = 32) (hpos : 0 < s.portTimeout) :
    (txExpired s = true →
      (RIOSTACK_portGetSymbol s).1.txState = TX_STATE_OUTPUT_ERROR_STOPPED ∧
      (RIOSTACK_portGetSymbol s).1.statusOutboundErrorTimeout =
        (s.statusOutboundErrorTimeout + 1) % 4294967296) ∧
    (∀ id ∈ inFlightIds (RIOSTACK_portGetSymbol s).1,
      u32sub (RIOSTACK_portGetSymbol s).1.portTime
          ((RIOSTACK_portGetSymbol s).1.txFrameTimeout.getD id 0) <
        (RIOSTACK_portGetSymbol s).1.portTimeout ∨
      (RIOSTACK_portGetSymbol s).1.txState = TX_STATE_OUTPUT_ERROR_STOPPED) := by
  unfold RIOSTACK_portGetSymbol
  by_cases hex : txExpired s = true
  · have hscan : timeoutScan s =
        { s with txState := TX_STATE_OUTPUT_ERROR_STOPPED,
                 statusOutboundErrorTimeout :=
                   (s.statusOutboundErrorTimeout + 1) % 4294967296 } := by
      unfold timeoutScan
      rw [if_pos hex]
    rw [hscan]
    exact ⟨fun _ => ⟨rfl, rfl⟩, fun id _ => Or.inr rfl⟩
  · have hscan : timeoutScan s = s := by
      unfold timeoutScan
      rw [if_neg hex]
    rw [hscan]
    refine ⟨fun hc => absurd hc hex, ?_⟩
    have hfresh : ∀ id ∈ inFlightIds s,
        u32sub s.portTime (s.txFrameTimeout.getD id 0) < s.portTimeout := by
      intro id hid
      by_contra hge
      exact hex (by
        unfold txExpired
        rw [List.any_eq_true]
        refine ⟨id, hid, ?_⟩
        unfold frameExpired
        simp only [decide_eq_true_eq]
        omega)
    intro id hid
    exact Or.inl (txEmit_keeps_fresh s hlen hpos hfresh id hid)

/-- Witness for the amended C4: the timeout-check theorem applied to the
concrete state `witnessStack`, whose timeout array has 32 entries and whose
`portTimeout` is 100. -/
theorem timeout_check_portGetSymbol_witness :
    (witnessStack.txFrameTimeout.length = 32 ∧ 0 < witnessStack.portTimeout) ∧
    ((txExpired witnessStack = true →
      (RIOSTACK_portGetSymbol witnessStack).1.txState = TX_STATE_OUTPUT_ERROR_STOPPED ∧
      (RIOSTACK_portGetSymbol witnessStack).1.statusOutboundErrorTimeout =
        (witnessStack.statusOutboundErrorTimeout + 1) % 4294967296) ∧
    (∀ id ∈ inFlightIds (RIOSTACK_portGetSymbol witnessStack).1,
      u32sub (RIOSTACK_portGetSymbol witnessStack).1.portTime
          ((RIOSTACK_portGetSymbol witnessStack).1.txFrameTimeout.getD id 0) <
        (RIOSTACK_portGetSymbol witnessStack).1.portTimeout ∨
      (RIOSTACK_portGetSymbol witnessStack).1.txState = TX_STATE_OUTPUT_ERROR_STOPPED)) :=
  ⟨⟨by decide, by decide⟩,
    timeout_check_portGetSymbol witnessStack (by decide) (by decide)⟩

/-- Counterexample to C4 as stated: `c4BadStack` is reachable (its last API
call is `portSetTime`), its in-flight ackId 0 is 92 ticks past the 10-tick
budget, and its transmitter is still `TX_STATE_LINK_INITIALIZED` — the
timeout check runs only inside `portGetSymbol`, so the claimed invariant
fails after a `portSetTime` call. -/
theorem timeout_invariant_counterexample : ¬ timeoutInvariantClaimed := by
  intro hcl
  have hreach : Reachable c4BadStack :=
    Reachable.setTime 100
      (reachable_pumpTx
        (Reachable.setOutbound [100, 200, 300]
          (reachable_pumpTx
            (reachable_addStatusN
              (Reachable.setStatus 1 (Reachable.setTimeout 10 (Reachable.opened 70 70)))
              7)
            15))
        5)
  rcases hcl c4BadStack hreach with hfresh | herr
  · have h0 : (0 : Nat) ∈ inFlightIds c4BadStack := by decide
    have hlt := hfresh 0 h0
    revert hlt
    decide
  · revert herr
    decide
